import Mathlib

/-!
Verification of the payment-allocation core of the bunny-teacher-online
backend: the library-name classifier, the order-share calculator, the
watch-time aggregation, and the payment calculation and orchestration
(`backend/financial_utils.py` and the `calculate_payments` endpoint of
`backend/main.py`), shallowly embedded over exact rational arithmetic.
-/

namespace BunnyTeacher

/-! ## Library-name classifier (`financial_utils.parse_library_name`) -/

/-- ASCII whitespace as recognised by Python `str.strip` and `\s`. -/
def isPySpace (c : Char) : Bool :=
  c = ' ' ∨ c = '\t' ∨ c = '\n' ∨ c = '\r' ∨ c.toNat = 11 ∨ c.toNat = 12

/-- Python `str.strip`: drop leading and trailing whitespace. -/
def pyStrip (l : List Char) : List Char :=
  ((l.dropWhile isPySpace).reverse.dropWhile isPySpace).reverse

/-- One substitution of `^\s*[\(\[][^\)\]]*[\)\]]\s*` by the empty string:
strip a leading parenthesised/bracketed qualifier such as `(OLD)` or `[OLD]`.
If the pattern does not match (no opener, or no closer anywhere after it),
the input is returned unchanged. -/
def stripQualifier (l : List Char) : List Char :=
  let t := l.dropWhile isPySpace
  match t with
  | c :: rest =>
    if c = '(' ∨ c = '[' then
      match rest.dropWhile (fun d => ¬ (d = ')' ∨ d = ']')) with
      | _ :: rest2 => rest2.dropWhile isPySpace
      | [] => l
    else l
  | [] => l

/-- One substitution of `^\s*OLD\s*` (case-insensitive) by the empty string:
strip a bare leading `OLD` marker. -/
def stripOldMarker (l : List Char) : List Char :=
  let t := l.dropWhile isPySpace
  match t with
  | c1 :: c2 :: c3 :: rest =>
    if c1.toUpper = 'O' ∧ c2.toUpper = 'L' ∧ c3.toUpper = 'D' then
      rest.dropWhile isPySpace
    else l
  | _ => l

/-- Split a character list at every occurrence of `sep` (empty pieces kept,
as in Python's `str.split` / `re.split` on a single character). -/
def splitOnChar (sep : Char) : List Char → List (List Char)
  | [] => [[]]
  | c :: rest =>
    let r := splitOnChar sep rest
    if c = sep then [] :: r
    else
      match r with
      | h :: t => (c :: h) :: t
      | [] => [[c]]

/-- The token list of a library name: strip, remove the leading qualifier and
`OLD` marker, split on runs of hyphens, strip and uppercase each part, and
drop empty parts.  (Splitting on single hyphens and dropping empties is
equivalent to Python's `re.split(r'-+', ...)` followed by the same filter.) -/
def libTokens (s : String) : List String :=
  let name := stripOldMarker (stripQualifier (pyStrip s.toList))
  ((splitOnChar '-' name).map
      (fun p => String.mk ((pyStrip p).map Char.toUpper))).filter
    (fun p => p ≠ "")

/-- `COMMON_SUBJECT_CODES`: subjects taught identically in all sections. -/
def COMMON_SUBJECT_CODES : List String :=
  ["AR", "EN", "HX", "SS", "S.S", "HIST", "HISTORY",
   "GEO", "GEOGRAPHY", "SOC", "SOCIAL"]

/-- `SECTION_SUBJECT_CODES`: subjects needing a section indicator. -/
def SECTION_SUBJECT_CODES : List String :=
  ["ISC", "BIO", "BIOLOGY",
   "CH", "CHEM", "CHEMISTRY",
   "PHYS", "PHYSICS",
   "MATH", "MATHEMATICS",
   "PURE", "APPLIED"]

/-- `SUBJECT_CODE_ALIASES`: normalisation table for subject-code variants. -/
def SUBJECT_CODE_ALIASES : List (String × String) :=
  [("CHEM", "CH"), ("CHEMISTRY", "CH"), ("BIOLOGY", "BIO"),
   ("PHYSICS", "PHYS"), ("MATHEMATICS", "MATH"), ("HISTORY", "HX"),
   ("HIST", "HX"), ("GEOGRAPHY", "GEO"), ("SOCIAL", "SOC"), ("S.S", "SS")]

/-- `normalize_subject_code`: uppercase, strip, then apply the alias table. -/
def normalize_subject_code (code : String) : String :=
  let c := String.mk (pyStrip (code.toList.map Char.toUpper))
  match SUBJECT_CODE_ALIASES.lookup c with
  | some v => v
  | none => c

/-- The stage pattern `^[A-Z]\d+$`: one capital letter followed by
one or more digits. -/
def stagePattern (t : String) : Bool :=
  match t.toList with
  | c :: rest => c.isUpper ∧ rest ≠ [] ∧ rest.all Char.isDigit
  | [] => false

/-- `SECTION_INDICATOR_TO_SECTION` as a lookup: `AR ↦ GEN`, `EN ↦ LANG`,
anything else has no section. -/
def sectionFromIndicator (t : String) : Option String :=
  if t = "AR" then some ("GEN")
  else if t = "EN" then some ("LANG")
  else none

/-- The token-analysis part of `parse_library_name`: stage check, common
subject, multi-part subject (`PURE-MATH` / `APPLIED-MATH`), section-specific
subject with optional indicator, then the unknown-subject fallback. -/
def classifyTokens : List String → Option String × Option String × Option String
  | t0 :: t1 :: rest =>
    if stagePattern t0 then
      let np1 := normalize_subject_code t1
      if np1 ∈ COMMON_SUBJECT_CODES then
        (some t0, none, some np1)
      else
        match rest with
        | t2 :: rest2 =>
          if (t1 = "PURE" ∨ t1 = "APPLIED") ∧ t2 = "MATH" then
            (some t0, (rest2.head?).bind sectionFromIndicator,
             some (t1 ++ "-MATH"))
          else if np1 ∈ SECTION_SUBJECT_CODES ∨ t1 ∈ SECTION_SUBJECT_CODES then
            (some t0, sectionFromIndicator t2,
             some (if np1 ∈ SECTION_SUBJECT_CODES then np1 else t1))
          else
            (some t0, none, some np1)
        | [] =>
          if np1 ∈ SECTION_SUBJECT_CODES ∨ t1 ∈ SECTION_SUBJECT_CODES then
            (some t0, none,
             some (if np1 ∈ SECTION_SUBJECT_CODES then np1 else t1))
          else
            (some t0, none, some np1)
    else (none, none, none)
  | _ => (none, none, none)

/-- `parse_library_name`: classify a display name into
`(stage_code, section_code, subject_code)`, any of which may be absent.
The empty-name guard is Python's `if not library_name`. -/
def parse_library_name (library_name : String) :
    Option String × Option String × Option String :=
  if library_name = "" then (none, none, none)
  else classifyTokens (libTokens library_name)


/-! ## Python-dict model

`calculate_section_order_percentages` and the `watch_time_map` of
`calculate_payments` build Python dicts keyed by integers.  A dict is
modelled as an association list: assigning to an existing key updates it
in place, assigning to a fresh key appends. -/

/-- Python dict assignment `m[k] = v`. -/
def dictInsert {β : Type} (m : List (Nat × β)) (k : Nat) (v : β) :
    List (Nat × β) :=
  if m.any (fun kv => kv.1 = k) then
    m.map (fun kv => if kv.1 = k then (k, v) else kv)
  else m ++ [(k, v)]

/-- Python `m.get(k, d)`. -/
def dictGet {β : Type} (m : List (Nat × β)) (k : Nat) (d : β) : β :=
  match m.find? (fun kv => kv.1 = k) with
  | some kv => kv.2
  | none => d

/-! ## Order-share calculator
(`financial_utils.calculate_section_order_percentages`) -/

/-- One record of the `sections_data` list handed to the order-share
calculator: `{'section_id': ..., 'total_orders': ...}`. -/
structure SectionOrders where
  section_id : Nat
  total_orders : Nat
deriving DecidableEq, Repr

/-- `calculate_section_order_percentages`: map each section id to its
fraction of total orders; with zero total orders, distribute `1/n` each
(`0.0` on an empty input, where the comprehension is empty anyway). -/
def calculate_section_order_percentages (sections_data : List SectionOrders) :
    List (Nat × ℚ) :=
  let total : Nat := (sections_data.map (·.total_orders)).sum
  let n : Nat := sections_data.length
  if total = 0 then
    sections_data.foldl
      (fun m s => dictInsert m s.section_id (if n = 0 then 0 else 1 / (n : ℚ)))
      []
  else
    sections_data.foldl
      (fun m s => dictInsert m s.section_id ((s.total_orders : ℚ) / (total : ℚ)))
      []

/-! ## Payment calculator (`financial_utils.calculate_teacher_payment`)

Python floats are modelled by exact rationals; watch-time seconds are the
integers they are in the database. -/

/-- The breakdown dict returned by `calculate_teacher_payment`. -/
structure PaymentCalc where
  watch_time_percentage : ℚ
  section_order_percentage : ℚ
  adjusted_watch_time_percentage : ℚ
  base_revenue : ℚ
  revenue_percentage_applied : ℚ
  calculated_revenue : ℚ
  tax_rate_applied : ℚ
  tax_amount : ℚ
  final_payment : ℚ
deriving DecidableEq, Repr

/-- `calculate_teacher_payment`: one teacher's payment for one section. -/
def calculate_teacher_payment (section_revenue : ℚ)
    (teacher_watch_time_seconds total_section_watch_time_seconds : Nat)
    (revenue_percentage tax_rate : ℚ) (section_order_percentage : ℚ) :
    PaymentCalc :=
  let watch_time_pct : ℚ :=
    if total_section_watch_time_seconds = 0 then 0
    else (teacher_watch_time_seconds : ℚ) / (total_section_watch_time_seconds : ℚ)
  let adjusted_pct := watch_time_pct * section_order_percentage
  let base_revenue := section_revenue * adjusted_pct
  let calc_revenue := base_revenue * revenue_percentage
  let tax_amount := calc_revenue * tax_rate
  let final_payment := calc_revenue - tax_amount
  { watch_time_percentage := watch_time_pct,
    section_order_percentage := section_order_percentage,
    adjusted_watch_time_percentage := adjusted_pct,
    base_revenue := base_revenue,
    revenue_percentage_applied := revenue_percentage,
    calculated_revenue := calc_revenue,
    tax_rate_applied := tax_rate,
    tax_amount := tax_amount,
    final_payment := final_payment }

/-! ## Orchestration data (`calculate_payments` in `main.py`)

Rows of the tables the endpoint reads, restricted to the columns it uses.
The endpoint's queries are modelled as the row lists they return. -/

/-- A `SectionRevenue` row for the requested (period, stage). -/
structure SectionRevenueRow where
  section_id : Nat
  total_orders : Nat
  total_revenue_egp : ℚ
deriving DecidableEq, Repr

/-- A `TeacherAssignment` row for the requested stage
(`section_id = none` marks a common-subject assignment). -/
structure AssignmentRow where
  id : Nat
  library_id : Nat
  section_id : Option Nat
  subject_id : Nat
  tax_rate : ℚ
  revenue_percentage : ℚ
deriving DecidableEq, Repr

/-- A `Subject` row (only the fields the endpoint reads). -/
structure SubjectRow where
  id : Nat
  is_common : Bool
deriving DecidableEq, Repr

/-- A `LibraryHistoricalStats` row (month is `1-12` in `models.py`). -/
structure HistStatRow where
  library_id : Nat
  month : Nat
  year : Nat
  total_watch_time_seconds : Nat
deriving DecidableEq, Repr

/-- A `TeacherPayment` row as created by the endpoint. -/
structure TeacherPaymentRow where
  period_id : Nat
  assignment_id : Nat
  library_id : Nat
  stage_id : Nat
  section_id : Nat
  subject_id : Nat
  total_watch_time_seconds : Nat
  watch_time_percentage : ℚ
  section_total_orders : Nat
  section_order_percentage : ℚ
  base_revenue : ℚ
  revenue_percentage_applied : ℚ
  calculated_revenue : ℚ
  tax_rate_applied : ℚ
  tax_amount : ℚ
  final_payment : ℚ
deriving DecidableEq, Repr, Inhabited

/-- The sum the endpoint takes for one library:
`db.query(LibraryHistoricalStats).filter(library_id == lib, year == period.year)`
then `sum(s.total_watch_time_seconds for s in stats)` — all rows of the
period's *year*, with no month restriction. -/
def yearStatsSum (stats : List HistStatRow) (lib : Nat) (year : Nat) : Nat :=
  ((stats.filter (fun s => s.library_id = lib ∧ s.year = year)).map
    (·.total_watch_time_seconds)).sum

/-- The endpoint's `watch_time_map`: one dict entry per assignment's library,
holding that library's year sum. -/
def buildWatchTimeMap (assignments : List AssignmentRow)
    (stats : List HistStatRow) (year : Nat) : List (Nat × Nat) :=
  assignments.foldl
    (fun m a => dictInsert m a.library_id (yearStatsSum stats a.library_id year))
    []

/-- The endpoint's `section_assignments` filter: assignments whose
`section_id` equals the revenue row's section, plus common (null-section)
assignments. -/
def section_assignments (assignments : List AssignmentRow) (sid : Nat) :
    List AssignmentRow :=
  assignments.filter (fun a => a.section_id = some sid ∨ a.section_id = none)

/-- The endpoint's `total_section_watch_time`: raw watch time summed over
the assignments mapped to the section. -/
def total_section_watch_time (wmap : List (Nat × Nat))
    (assignments : List AssignmentRow) (sid : Nat) : Nat :=
  ((section_assignments assignments sid).map
    (fun a => dictGet wmap a.library_id 0)).sum

/-- The payment row the endpoint creates for one (revenue row, assignment)
pair, given the precomputed order percentages, watch-time map and pool. -/
def paymentForAssignment (period_id stage_id : Nat) (pcts : List (Nat × ℚ))
    (wmap : List (Nat × Nat)) (subjects : List SubjectRow)
    (rev : SectionRevenueRow) (pool : Nat) (a : AssignmentRow) :
    TeacherPaymentRow :=
  let teacher_watch_time := dictGet wmap a.library_id 0
  let subject := subjects.find? (fun s => s.id = a.subject_id)
  let section_order_pct : ℚ :=
    match subject with
    | some s => if s.is_common then dictGet pcts rev.section_id 1 else 1
    | none => 1
  let pc := calculate_teacher_payment rev.total_revenue_egp teacher_watch_time
    pool a.revenue_percentage a.tax_rate section_order_pct
  { period_id := period_id,
    assignment_id := a.id,
    library_id := a.library_id,
    stage_id := stage_id,
    section_id := rev.section_id,
    subject_id := a.subject_id,
    total_watch_time_seconds := teacher_watch_time,
    watch_time_percentage := pc.watch_time_percentage,
    section_total_orders := rev.total_orders,
    section_order_percentage := pc.section_order_percentage,
    base_revenue := pc.base_revenue,
    revenue_percentage_applied := pc.revenue_percentage_applied,
    calculated_revenue := pc.calculated_revenue,
    tax_rate_applied := pc.tax_rate_applied,
    tax_amount := pc.tax_amount,
    final_payment := pc.final_payment }

/-- The payment rows created by one calculation run (the nested loops of
`calculate_payments` after its precondition checks). -/
def calcPaymentsCore (period_id stage_id year : Nat)
    (revenues : List SectionRevenueRow) (assignments : List AssignmentRow)
    (subjects : List SubjectRow) (stats : List HistStatRow) :
    List TeacherPaymentRow :=
  let pcts := calculate_section_order_percentages
    (revenues.map (fun r => ⟨r.section_id, r.total_orders⟩))
  let wmap := buildWatchTimeMap assignments stats year
  revenues.flatMap (fun rev =>
    let pool := total_section_watch_time wmap assignments rev.section_id
    (section_assignments assignments rev.section_id).map
      (paymentForAssignment period_id stage_id pcts wmap subjects rev pool))

/-- The `calculate_payments` endpoint as a state transition on the stored
`TeacherPayment` set: check the preconditions in the code's order, then
delete the (period, stage) payments and insert the recomputed ones.
Returns the response (or the `HTTPException` detail) and the new stored set. -/
def calculate_payments (period_id stage_id year : Nat)
    (revenues : List SectionRevenueRow) (assignments : List AssignmentRow)
    (subjects : List SubjectRow) (stats : List HistStatRow)
    (stored : List TeacherPaymentRow) :
    Except String (List TeacherPaymentRow) × List TeacherPaymentRow :=
  if revenues = [] then
    (Except.error ("No revenue data found. Please add revenue data first."),
     stored)
  else if assignments = [] then
    (Except.error ("No teacher assignments found. Please assign teachers first."),
     stored)
  else
    let kept := stored.filter
      (fun p => ¬ (p.period_id = period_id ∧ p.stage_id = stage_id))
    let created :=
      calcPaymentsCore period_id stage_id year revenues assignments subjects stats
    (Except.ok created, kept ++ created)

/-! ## Spec-side definitions

Two definitions written from the specification's words, to be compared
with the code's behaviour. -/

/-- Modelled from the spec: the watch-time aggregator of spec §4.3 for a
period with a declared list of months.  The source's `FinancialPeriod`
(`financial_models.py`) stores only `name`, `year` and `notes` — no months
column exists anywhere in the repository — so the declared-months lookup
described by the spec is missing from the code.  Following the spec's
words: for each declared month, look up the historical stat row for that
exact (library, year, month), a missing row contributing 0; if the period
declares no months, fall back to summing all rows matching the period's
year.  Months are the integer month keys (1–12) used by
`LibraryHistoricalStats`. -/
def specAggregateWatchTime (stats : List HistStatRow) (lib year : Nat)
    (months : List Nat) : Nat :=
  if months = [] then yearStatsSum stats lib year
  else
    (months.map (fun m =>
      match stats.find? (fun s => s.library_id = lib ∧ s.year = year ∧ s.month = m) with
      | some st => st.total_watch_time_seconds
      | none => 0)).sum

/-- Whether an assignment's subject resolves to a common subject
(the endpoint's `subject and subject.is_common` test). -/
def isCommonAssignment (subjects : List SubjectRow) (a : AssignmentRow) : Bool :=
  match subjects.find? (fun s => s.id = a.subject_id) with
  | some s => s.is_common
  | none => false

/-- The section watch-time pool as worded by spec §4.5, for comparison with
the code's `total_section_watch_time`:
`pool(section) = sum(allocated watch time for common assignments in
section) + sum(raw watch time for section-specific assignments in
section)`, where the allocated watch time of a common assignment is its
raw total times the section's order share (spec §4.4). -/
def specSectionPool (wmap : List (Nat × Nat)) (pcts : List (Nat × ℚ))
    (subjects : List SubjectRow) (assignments : List AssignmentRow)
    (sid : Nat) : ℚ :=
  let sa := section_assignments assignments sid
  (((sa.filter (isCommonAssignment subjects)).map
      (fun a => ((dictGet wmap a.library_id 0 : ℕ) : ℚ) * dictGet pcts sid 1)).sum)
  + (((sa.filter (fun a => ¬ isCommonAssignment subjects a)).map
      (fun a => ((dictGet wmap a.library_id 0 : ℕ) : ℚ))).sum)

/-! ## Theorems -/

theorem parse_eq_classifyTokens (s : String) :
    parse_library_name s = classifyTokens (libTokens s) := by
  unfold parse_library_name
  split
  · next h => subst h; rfl
  · rfl

theorem normalize_of_section_code (t : String) (h : t ∈ SECTION_SUBJECT_CODES) :
    normalize_subject_code t ∈ SECTION_SUBJECT_CODES ∧
      normalize_subject_code t ∉ COMMON_SUBJECT_CODES := by
  fin_cases h <;> decide

/-- Claim C7: for every display name whose token after the stage token normalises
to a code in the common-subject set, the classifier returns the stage code,
a null section, and that common subject code. -/
theorem classify_common_subject (s t0 t1 : String) (rest : List String)
    (htok : libTokens s = t0 :: t1 :: rest)
    (hstage : stagePattern t0 = true)
    (hcommon : normalize_subject_code t1 ∈ COMMON_SUBJECT_CODES) :
    parse_library_name s = (some t0, none, some (normalize_subject_code t1)) := by
  rw [parse_eq_classifyTokens, htok]
  simp [classifyTokens, hstage, hcommon]

theorem classify_common_subject_witness :
    parse_library_name ("S1-HIST-P0046-Teacher") = (some ("S1"), none, some ("HX")) := by
  have h := classify_common_subject ("S1-HIST-P0046-Teacher") ("S1") ("HIST")
    ["P0046", "TEACHER"] (by decide) (by decide) (by decide)
  rw [show normalize_subject_code ("HIST") = ("HX") from by decide] at h
  exact h

/-- Claim C8: every display name of shape `<stage>-<subjectCode>-<AR|EN>-...`
with a section-specific subject code classifies to the given stage, the
normalised subject code, and the section mapped from the indicator
(AR to GEN, EN to LANG); the tokenisation already strips a leading
bracketed or parenthesised qualifier. -/
theorem classify_section_subject (s t0 t1 t2 : String) (rest : List String)
    (htok : libTokens s = t0 :: t1 :: t2 :: rest)
    (hstage : stagePattern t0 = true)
    (hsubj : t1 ∈ SECTION_SUBJECT_CODES)
    (hind : t2 = "AR" ∨ t2 = "EN") :
    parse_library_name s =
      (some t0, some (if t2 = "AR" then "GEN" else "LANG"),
       some (normalize_subject_code t1)) := by
  obtain ⟨hs1, hs2⟩ := normalize_of_section_code t1 hsubj
  have ht2 : t2 ≠ "MATH" := by rcases hind with h | h <;> subst h <;> decide
  rw [parse_eq_classifyTokens, htok]
  rcases hind with h | h <;> subst h <;>
    simp [classifyTokens, hstage, hs1, hs2, sectionFromIndicator]

theorem classify_section_subject_witness :
    parse_library_name ("(OLD)S1-MATH-EN--Name") = (some ("S1"), some ("LANG"), some ("MATH")) := by
  have h := classify_section_subject ("(OLD)S1-MATH-EN--Name") ("S1") ("MATH")
    ("EN") ["NAME"] (by decide) (by decide) (by decide) (Or.inr rfl)
  rw [show normalize_subject_code ("MATH") = ("MATH") from by decide] at h
  simpa using h

/-- Claim C9: the classifier is total (the embedding is a total function) and
returns all-null on each hard failure mode: fewer than two tokens remaining
after stripping, or a first token not matching one letter followed by
digits. -/
theorem classify_null_on_failure (s : String) :
    ((libTokens s).length < 2 → parse_library_name s = (none, none, none)) ∧
      (∀ t0 t1 rest, libTokens s = t0 :: t1 :: rest →
        stagePattern t0 = false → parse_library_name s = (none, none, none)) := by
  constructor
  · intro hlen
    rw [parse_eq_classifyTokens]
    rcases hls : libTokens s with _ | ⟨a, _ | ⟨b, r⟩⟩
    · rfl
    · rfl
    · rw [hls] at hlen; simp at hlen; omega
  · intro t0 t1 rest htok hstage
    rw [parse_eq_classifyTokens, htok]
    simp [classifyTokens, hstage]

theorem classify_null_on_failure_witness :
    parse_library_name ("HELLO") = (none, none, none) ∧
      parse_library_name ("1X-MATH-EN") = (none, none, none) :=
  ⟨(classify_null_on_failure ("HELLO")).1 (by decide),
   (classify_null_on_failure ("1X-MATH-EN")).2 ("1X") ("MATH") ["EN"]
     (by decide) (by decide)⟩

theorem dictInsert_fresh {β : Type} (m : List (Nat × β)) (k : Nat) (v : β)
    (h : ∀ kv ∈ m, kv.1 ≠ k) : dictInsert m k v = m ++ [(k, v)] := by
  unfold dictInsert
  rw [if_neg]
  simp only [List.any_eq_true, decide_eq_true_eq, not_exists]
  intro kv
  simp only [not_and]
  exact h kv

theorem foldl_dictInsert_nodup {β : Type} (f : SectionOrders → β) :
    ∀ (data : List SectionOrders) (m : List (Nat × β)),
      (m.map (·.1) ++ data.map (·.section_id)).Nodup →
      data.foldl (fun acc s => dictInsert acc s.section_id (f s)) m
        = m ++ data.map (fun s => (s.section_id, f s))
  | [], m, _ => by simp
  | s :: ds, m, h => by
    have hfresh : ∀ kv ∈ m, kv.1 ≠ s.section_id := by
      intro kv hkv
      have hdisj := (List.nodup_append.mp h).2.2
      exact fun he =>
        hdisj (List.mem_map_of_mem (·.1) hkv) (by rw [he]; exact List.mem_cons_self _ _)
    have h' : ((m ++ [(s.section_id, f s)]).map (·.1)
        ++ ds.map (·.section_id)).Nodup := by
      rw [List.map_append, List.append_assoc]
      simpa using h
    rw [List.foldl_cons, dictInsert_fresh m _ _ hfresh,
      foldl_dictInsert_nodup f ds (m ++ [(s.section_id, f s)]) h']
    simp

theorem list_sum_map_const {α : Type} (l : List α) (c : ℚ) :
    (l.map (fun _ => c)).sum = (l.length : ℚ) * c := by
  induction l with
  | nil => simp
  | cons a t ih => simp [ih]; ring

theorem list_sum_map_div (l : List ℚ) (T : ℚ) :
    (l.map (fun x => x / T)).sum = l.sum / T := by
  induction l with
  | nil => simp
  | cons a t ih => simp [ih, add_div]

theorem order_percentages_eq_map (data : List SectionOrders)
    (hnd : (data.map (·.section_id)).Nodup) :
    calculate_section_order_percentages data
      = data.map (fun s => (s.section_id,
          if (data.map (·.total_orders)).sum = 0 then
            (if data.length = 0 then 0 else 1 / (data.length : ℚ))
          else ((s.total_orders : ℚ) / (((data.map (·.total_orders)).sum : ℕ) : ℚ)))) := by
  simp only [calculate_section_order_percentages]
  by_cases htot : (data.map (·.total_orders)).sum = 0
  · rw [if_pos htot,
      foldl_dictInsert_nodup
        (fun _ => if data.length = 0 then (0 : ℚ) else 1 / (data.length : ℚ))
        data [] (by simpa using hnd)]
    simp [htot]
  · rw [if_neg htot,
      foldl_dictInsert_nodup
        (fun s => ((s.total_orders : ℚ) / (((data.map (·.total_orders)).sum : ℕ) : ℚ)))
        data [] (by simpa using hnd)]
    simp [htot]

/-- Claim C5 (amended): for every non-empty input list with pairwise-distinct
section ids, the order-share fractions sum exactly to 1, and each section's
fraction is `1/n` when the total order count is 0 and `orders/total`
otherwise.  (With a repeated section id the returned dict collapses the
duplicates and the fractions no longer sum to 1.) -/
theorem order_shares_sum_to_one (data : List SectionOrders) (hne : data ≠ [])
    (hnd : (data.map (·.section_id)).Nodup) :
    ((calculate_section_order_percentages data).map (·.2)).sum = 1 ∧
      calculate_section_order_percentages data
        = data.map (fun s => (s.section_id,
            if (data.map (·.total_orders)).sum = 0 then 1 / (data.length : ℚ)
            else ((s.total_orders : ℚ) / (((data.map (·.total_orders)).sum : ℕ) : ℚ)))) := by
  have hlen : data.length ≠ 0 := fun h => hne (List.length_eq_zero.mp h)
  have hmap := order_percentages_eq_map data hnd
  have hmap' : calculate_section_order_percentages data
      = data.map (fun s => (s.section_id,
          if (data.map (·.total_orders)).sum = 0 then 1 / (data.length : ℚ)
          else ((s.total_orders : ℚ) / (((data.map (·.total_orders)).sum : ℕ) : ℚ)))) := by
    rw [hmap]
    simp [hlen]
  refine ⟨?_, hmap'⟩
  rw [hmap', List.map_map]
  show (data.map (fun s : SectionOrders =>
      if (data.map (·.total_orders)).sum = 0 then 1 / (data.length : ℚ)
      else ((s.total_orders : ℚ) / (((data.map (·.total_orders)).sum : ℕ) : ℚ)))).sum = 1
  by_cases htot : (data.map (·.total_orders)).sum = 0
  · rw [show (fun s : SectionOrders =>
        if (data.map (·.total_orders)).sum = 0 then 1 / (data.length : ℚ)
        else ((s.total_orders : ℚ) / (((data.map (·.total_orders)).sum : ℕ) : ℚ)))
      = (fun _ : SectionOrders => 1 / (data.length : ℚ)) from
        funext fun s => if_pos htot]
    rw [list_sum_map_const, mul_one_div, div_self (by exact_mod_cast hlen)]
  · rw [show (fun s : SectionOrders =>
        if (data.map (·.total_orders)).sum = 0 then 1 / (data.length : ℚ)
        else ((s.total_orders : ℚ) / (((data.map (·.total_orders)).sum : ℕ) : ℚ)))
      = (fun x : ℚ => x / (((data.map (·.total_orders)).sum : ℕ) : ℚ))
          ∘ (fun s : SectionOrders => (s.total_orders : ℚ)) from
        funext fun s => if_neg htot]
    rw [← List.map_map, list_sum_map_div]
    rw [show (data.map (fun s : SectionOrders => (s.total_orders : ℚ))).sum
      = (((data.map (·.total_orders)).sum : ℕ) : ℚ) from by
        rw [Nat.cast_list_sum, List.map_map]; rfl]
    exact div_self (by exact_mod_cast htot)

theorem order_shares_sum_to_one_witness :
    ((calculate_section_order_percentages [⟨1, 1⟩, ⟨2, 3⟩]).map (·.2)).sum = 1 ∧
      calculate_section_order_percentages [⟨1, 1⟩, ⟨2, 3⟩]
        = ([⟨1, 1⟩, ⟨2, 3⟩] : List SectionOrders).map (fun s => (s.section_id,
            if (([⟨1, 1⟩, ⟨2, 3⟩] : List SectionOrders).map (·.total_orders)).sum = 0
            then 1 / ((([⟨1, 1⟩, ⟨2, 3⟩] : List SectionOrders).length : ℕ) : ℚ)
            else ((s.total_orders : ℚ) /
              (((([⟨1, 1⟩, ⟨2, 3⟩] : List SectionOrders).map (·.total_orders)).sum : ℕ) : ℚ)))) :=
  order_shares_sum_to_one [⟨1, 1⟩, ⟨2, 3⟩] (by decide) (by decide)

/-- Claim C5 (counterexample): with a non-empty input that repeats a section id,
the returned fractions do not sum to 1 — the claim as stated fails. -/
theorem order_shares_counterexample :
    ([⟨1, 0⟩, ⟨1, 0⟩] : List SectionOrders) ≠ [] ∧
      ((calculate_section_order_percentages [⟨1, 0⟩, ⟨1, 0⟩]).map (·.2)).sum ≠ 1 := by
  constructor
  · decide
  · with_unfolding_all decide

/-- Claim C10: with a non-negative section revenue, watch times `0 ≤ t ≤ T`, and
revenue percentage, tax rate and section order percentage each in `[0,1]`,
every monetary output of the payment calculator is non-negative and
`0 ≤ final ≤ calculated ≤ base ≤ section revenue`. -/
theorem payment_monotone_bounds (section_revenue : ℚ) (t T : Nat)
    (rp tr op : ℚ)
    (hrev : 0 ≤ section_revenue) (htT : t ≤ T)
    (hrp0 : 0 ≤ rp) (hrp1 : rp ≤ 1) (htr0 : 0 ≤ tr) (htr1 : tr ≤ 1)
    (hop0 : 0 ≤ op) (hop1 : op ≤ 1) :
    0 ≤ (calculate_teacher_payment section_revenue t T rp tr op).final_payment ∧
    (calculate_teacher_payment section_revenue t T rp tr op).final_payment
      ≤ (calculate_teacher_payment section_revenue t T rp tr op).calculated_revenue ∧
    (calculate_teacher_payment section_revenue t T rp tr op).calculated_revenue
      ≤ (calculate_teacher_payment section_revenue t T rp tr op).base_revenue ∧
    (calculate_teacher_payment section_revenue t T rp tr op).base_revenue
      ≤ section_revenue ∧
    0 ≤ (calculate_teacher_payment section_revenue t T rp tr op).tax_amount ∧
    0 ≤ (calculate_teacher_payment section_revenue t T rp tr op).base_revenue ∧
    0 ≤ (calculate_teacher_payment section_revenue t T rp tr op).calculated_revenue := by
  have hw0 : (0 : ℚ) ≤ (if T = 0 then (0 : ℚ) else (t : ℚ) / (T : ℚ)) := by
    split
    · exact le_refl 0
    · positivity
  have hw1 : (if T = 0 then (0 : ℚ) else (t : ℚ) / (T : ℚ)) ≤ 1 := by
    split
    · norm_num
    · next hT =>
      have hTpos : 0 < (T : ℚ) := by
        exact_mod_cast Nat.pos_of_ne_zero hT
      rw [div_le_one hTpos]
      exact_mod_cast htT
  simp only [calculate_teacher_payment]
  set w : ℚ := if T = 0 then (0 : ℚ) else (t : ℚ) / (T : ℚ) with hwdef
  have hadj0 : 0 ≤ w * op := mul_nonneg hw0 hop0
  have hadj1 : w * op ≤ 1 := by
    have := mul_le_mul hw1 hop1 hop0 zero_le_one
    simpa using this
  have hbase0 : 0 ≤ section_revenue * (w * op) := mul_nonneg hrev hadj0
  have hbase1 : section_revenue * (w * op) ≤ section_revenue :=
    mul_le_of_le_one_right hrev hadj1
  have hcalc0 : 0 ≤ section_revenue * (w * op) * rp := mul_nonneg hbase0 hrp0
  have hcalc1 : section_revenue * (w * op) * rp ≤ section_revenue * (w * op) :=
    mul_le_of_le_one_right hbase0 hrp1
  have htax0 : 0 ≤ section_revenue * (w * op) * rp * tr := mul_nonneg hcalc0 htr0
  have hfin0 : 0 ≤ section_revenue * (w * op) * rp
      - section_revenue * (w * op) * rp * tr := by
    have h1 := mul_nonneg hcalc0 (sub_nonneg.mpr htr1)
    have h2 : section_revenue * (w * op) * rp * (1 - tr)
        = section_revenue * (w * op) * rp - section_revenue * (w * op) * rp * tr := by
      ring
    linarith
  have hfinle : section_revenue * (w * op) * rp
      - section_revenue * (w * op) * rp * tr ≤ section_revenue * (w * op) * rp := by
    linarith
  exact ⟨hfin0, hfinle, hcalc1, hbase1, htax0, hbase0, hcalc0⟩

theorem payment_monotone_bounds_witness :
    0 ≤ (calculate_teacher_payment 100 3 4 (9/10) (1/10) 1).final_payment ∧
    (calculate_teacher_payment 100 3 4 (9/10) (1/10) 1).final_payment
      ≤ (calculate_teacher_payment 100 3 4 (9/10) (1/10) 1).calculated_revenue ∧
    (calculate_teacher_payment 100 3 4 (9/10) (1/10) 1).calculated_revenue
      ≤ (calculate_teacher_payment 100 3 4 (9/10) (1/10) 1).base_revenue ∧
    (calculate_teacher_payment 100 3 4 (9/10) (1/10) 1).base_revenue ≤ 100 ∧
    0 ≤ (calculate_teacher_payment 100 3 4 (9/10) (1/10) 1).tax_amount ∧
    0 ≤ (calculate_teacher_payment 100 3 4 (9/10) (1/10) 1).base_revenue ∧
    0 ≤ (calculate_teacher_payment 100 3 4 (9/10) (1/10) 1).calculated_revenue :=
  payment_monotone_bounds 100 3 4 (9/10) (1/10) 1 (by norm_num) (by norm_num)
    (by norm_num) (by norm_num) (by norm_num) (by norm_num) (by norm_num)
    (by norm_num)

/-- Claim C6: every payment created by a calculation run satisfies
`tax_amount = calculated_revenue × tax_rate_applied`,
`final_payment = calculated_revenue − tax_amount`, and hence
`final_payment = base_revenue × revenue_percentage × (1 − tax_rate)`,
exactly. -/
theorem payment_tax_consistency (period_id stage_id year : Nat)
    (revenues : List SectionRevenueRow) (assignments : List AssignmentRow)
    (subjects : List SubjectRow) (stats : List HistStatRow)
    (p : TeacherPaymentRow)
    (hp : p ∈ calcPaymentsCore period_id stage_id year revenues assignments
      subjects stats) :
    p.tax_amount = p.calculated_revenue * p.tax_rate_applied ∧
      p.final_payment = p.calculated_revenue - p.tax_amount ∧
      p.final_payment
        = p.base_revenue * p.revenue_percentage_applied
            * (1 - p.tax_rate_applied) := by
  simp only [calcPaymentsCore] at hp
  rcases List.mem_flatMap.mp hp with ⟨rev, hrev, hp2⟩
  rcases List.mem_map.mp hp2 with ⟨a, ha, rfl⟩
  refine ⟨rfl, rfl, ?_⟩
  simp only [paymentForAssignment, calculate_teacher_payment]
  ring

set_option maxRecDepth 4000 in
theorem payment_tax_consistency_witness :
    ((calcPaymentsCore 1 1 2024 [⟨1, 2, 100⟩] [⟨1, 7, some 1, 10, 1/10, 9/10⟩]
        [⟨10, false⟩] [⟨7, 1, 2024, 500⟩]).getD 0 default).tax_amount
      = ((calcPaymentsCore 1 1 2024 [⟨1, 2, 100⟩] [⟨1, 7, some 1, 10, 1/10, 9/10⟩]
        [⟨10, false⟩] [⟨7, 1, 2024, 500⟩]).getD 0 default).calculated_revenue
        * ((calcPaymentsCore 1 1 2024 [⟨1, 2, 100⟩] [⟨1, 7, some 1, 10, 1/10, 9/10⟩]
        [⟨10, false⟩] [⟨7, 1, 2024, 500⟩]).getD 0 default).tax_rate_applied ∧
    ((calcPaymentsCore 1 1 2024 [⟨1, 2, 100⟩] [⟨1, 7, some 1, 10, 1/10, 9/10⟩]
        [⟨10, false⟩] [⟨7, 1, 2024, 500⟩]).getD 0 default).final_payment
      = ((calcPaymentsCore 1 1 2024 [⟨1, 2, 100⟩] [⟨1, 7, some 1, 10, 1/10, 9/10⟩]
        [⟨10, false⟩] [⟨7, 1, 2024, 500⟩]).getD 0 default).calculated_revenue
        - ((calcPaymentsCore 1 1 2024 [⟨1, 2, 100⟩] [⟨1, 7, some 1, 10, 1/10, 9/10⟩]
        [⟨10, false⟩] [⟨7, 1, 2024, 500⟩]).getD 0 default).tax_amount ∧
    ((calcPaymentsCore 1 1 2024 [⟨1, 2, 100⟩] [⟨1, 7, some 1, 10, 1/10, 9/10⟩]
        [⟨10, false⟩] [⟨7, 1, 2024, 500⟩]).getD 0 default).final_payment
      = ((calcPaymentsCore 1 1 2024 [⟨1, 2, 100⟩] [⟨1, 7, some 1, 10, 1/10, 9/10⟩]
        [⟨10, false⟩] [⟨7, 1, 2024, 500⟩]).getD 0 default).base_revenue
        * ((calcPaymentsCore 1 1 2024 [⟨1, 2, 100⟩] [⟨1, 7, some 1, 10, 1/10, 9/10⟩]
        [⟨10, false⟩] [⟨7, 1, 2024, 500⟩]).getD 0 default).revenue_percentage_applied
        * (1 - ((calcPaymentsCore 1 1 2024 [⟨1, 2, 100⟩] [⟨1, 7, some 1, 10, 1/10, 9/10⟩]
        [⟨10, false⟩] [⟨7, 1, 2024, 500⟩]).getD 0 default).tax_rate_applied) :=
  payment_tax_consistency 1 1 2024 [⟨1, 2, 100⟩] [⟨1, 7, some 1, 10, 1/10, 9/10⟩]
    [⟨10, false⟩] [⟨7, 1, 2024, 500⟩] _ (by with_unfolding_all decide)

/-- Claim C4: when a run finds no revenue rows, or no assignments for the stage,
it fails with a single descriptive error and the stored payment set is
left unchanged — nothing is deleted or created. -/
theorem precondition_failure_no_mutation (period_id stage_id year : Nat)
    (revenues : List SectionRevenueRow) (assignments : List AssignmentRow)
    (subjects : List SubjectRow) (stats : List HistStatRow)
    (stored : List TeacherPaymentRow)
    (h : revenues = [] ∨ assignments = []) :
    (calculate_payments period_id stage_id year revenues assignments subjects
        stats stored).2 = stored ∧
      ∃ msg, (calculate_payments period_id stage_id year revenues assignments
        subjects stats stored).1 = Except.error msg := by
  unfold calculate_payments
  rcases h with h | h
  · rw [if_pos h]
    exact ⟨rfl, _, rfl⟩
  · by_cases h2 : revenues = []
    · rw [if_pos h2]
      exact ⟨rfl, _, rfl⟩
    · rw [if_neg h2, if_pos h]
      exact ⟨rfl, _, rfl⟩

theorem precondition_failure_no_mutation_witness :
    (calculate_payments 1 1 2024 [] [⟨1, 5, none, 10, 0, 1⟩] [] []
        [default]).2 = [default] ∧
      ∃ msg, (calculate_payments 1 1 2024 [] [⟨1, 5, none, 10, 0, 1⟩] [] []
        [default]).1 = Except.error msg :=
  precondition_failure_no_mutation 1 1 2024 [] [⟨1, 5, none, 10, 0, 1⟩] [] []
    [default] (Or.inl rfl)

/-- Claim C3 (amended): every stored payment's base revenue equals its section's
revenue times the stored watch-time percentage times the stored section
order percentage (the claim omitted the order-percentage factor), where the
watch-time percentage is the teacher's watch time over the section pool
when the pool is positive and 0 when it is zero. -/
theorem base_revenue_formula (period_id stage_id year : Nat)
    (revenues : List SectionRevenueRow) (assignments : List AssignmentRow)
    (subjects : List SubjectRow) (stats : List HistStatRow)
    (p : TeacherPaymentRow)
    (hp : p ∈ calcPaymentsCore period_id stage_id year revenues assignments
      subjects stats) :
    ∃ rev ∈ revenues, p.section_id = rev.section_id ∧
      p.base_revenue
        = rev.total_revenue_egp * p.watch_time_percentage
            * p.section_order_percentage ∧
      p.watch_time_percentage
        = (if total_section_watch_time (buildWatchTimeMap assignments stats year)
              assignments rev.section_id = 0 then 0
           else (p.total_watch_time_seconds : ℚ)
             / ((total_section_watch_time (buildWatchTimeMap assignments stats year)
                  assignments rev.section_id : ℕ) : ℚ)) := by
  simp only [calcPaymentsCore] at hp
  rcases List.mem_flatMap.mp hp with ⟨rev, hrev, hp2⟩
  rcases List.mem_map.mp hp2 with ⟨a, ha, rfl⟩
  refine ⟨rev, hrev, rfl, ?_, ?_⟩
  · simp only [paymentForAssignment, calculate_teacher_payment]
    ring
  · rfl

set_option maxRecDepth 8000 in
theorem base_revenue_formula_witness :
    ∃ rev ∈ ([⟨1, 2, 100⟩] : List SectionRevenueRow),
      ((calcPaymentsCore 1 1 2024 [⟨1, 2, 100⟩] [⟨1, 7, some 1, 10, 1/10, 9/10⟩]
          [⟨10, false⟩] [⟨7, 1, 2024, 500⟩]).getD 0 default).section_id
        = rev.section_id ∧
      ((calcPaymentsCore 1 1 2024 [⟨1, 2, 100⟩] [⟨1, 7, some 1, 10, 1/10, 9/10⟩]
          [⟨10, false⟩] [⟨7, 1, 2024, 500⟩]).getD 0 default).base_revenue
        = rev.total_revenue_egp
          * ((calcPaymentsCore 1 1 2024 [⟨1, 2, 100⟩] [⟨1, 7, some 1, 10, 1/10, 9/10⟩]
            [⟨10, false⟩] [⟨7, 1, 2024, 500⟩]).getD 0 default).watch_time_percentage
          * ((calcPaymentsCore 1 1 2024 [⟨1, 2, 100⟩] [⟨1, 7, some 1, 10, 1/10, 9/10⟩]
            [⟨10, false⟩] [⟨7, 1, 2024, 500⟩]).getD 0 default).section_order_percentage ∧
      ((calcPaymentsCore 1 1 2024 [⟨1, 2, 100⟩] [⟨1, 7, some 1, 10, 1/10, 9/10⟩]
          [⟨10, false⟩] [⟨7, 1, 2024, 500⟩]).getD 0 default).watch_time_percentage
        = (if total_section_watch_time
              (buildWatchTimeMap [⟨1, 7, some 1, 10, 1/10, 9/10⟩] [⟨7, 1, 2024, 500⟩] 2024)
              [⟨1, 7, some 1, 10, 1/10, 9/10⟩] rev.section_id = 0 then 0
           else (((calcPaymentsCore 1 1 2024 [⟨1, 2, 100⟩] [⟨1, 7, some 1, 10, 1/10, 9/10⟩]
              [⟨10, false⟩] [⟨7, 1, 2024, 500⟩]).getD 0 default).total_watch_time_seconds : ℚ)
             / ((total_section_watch_time
                  (buildWatchTimeMap [⟨1, 7, some 1, 10, 1/10, 9/10⟩] [⟨7, 1, 2024, 500⟩] 2024)
                  [⟨1, 7, some 1, 10, 1/10, 9/10⟩] rev.section_id : ℕ) : ℚ)) :=
  base_revenue_formula 1 1 2024 [⟨1, 2, 100⟩] [⟨1, 7, some 1, 10, 1/10, 9/10⟩]
    [⟨10, false⟩] [⟨7, 1, 2024, 500⟩] _ (by with_unfolding_all decide)

set_option maxRecDepth 8000 in
/-- Claim C3 (counterexample): a common-subject assignment with two sections of
orders 1 and 3: the stored payment for the first section has
watch-time percentage 1 but base revenue 25 = 100 × 1 × ¼, not
100 × 1 — the stored base revenue is not revenue × watch-time percentage. -/
theorem base_revenue_counterexample :
    ((calcPaymentsCore 1 1 2024 [⟨1, 1, 100⟩, ⟨2, 3, 100⟩] [⟨1, 5, none, 10, 0, 1⟩]
        [⟨10, true⟩] [⟨5, 1, 2024, 4000⟩]).getD 0 default).section_id = 1 ∧
    ((calcPaymentsCore 1 1 2024 [⟨1, 1, 100⟩, ⟨2, 3, 100⟩] [⟨1, 5, none, 10, 0, 1⟩]
        [⟨10, true⟩] [⟨5, 1, 2024, 4000⟩]).getD 0 default).watch_time_percentage = 1 ∧
    ((calcPaymentsCore 1 1 2024 [⟨1, 1, 100⟩, ⟨2, 3, 100⟩] [⟨1, 5, none, 10, 0, 1⟩]
        [⟨10, true⟩] [⟨5, 1, 2024, 4000⟩]).getD 0 default).base_revenue = 25 ∧
    ((calcPaymentsCore 1 1 2024 [⟨1, 1, 100⟩, ⟨2, 3, 100⟩] [⟨1, 5, none, 10, 0, 1⟩]
        [⟨10, true⟩] [⟨5, 1, 2024, 4000⟩]).getD 0 default).base_revenue
      ≠ (100 : ℚ)
        * ((calcPaymentsCore 1 1 2024 [⟨1, 1, 100⟩, ⟨2, 3, 100⟩] [⟨1, 5, none, 10, 0, 1⟩]
          [⟨10, true⟩] [⟨5, 1, 2024, 4000⟩]).getD 0 default).watch_time_percentage := by
  with_unfolding_all decide

/-- Claim C2 (amended): the pool used as the denominator of the section's
watch-time percentages is the *raw* watch time of the common assignments
mapped to the section plus the raw watch time of the section-specific
ones — the order-share factor the spec describes is not applied to the
pool (it is applied later to each common teacher's own percentage). -/
theorem section_pool_amended (wmap : List (Nat × Nat))
    (subjects : List SubjectRow) (assignments : List AssignmentRow)
    (sid : Nat) :
    ((total_section_watch_time wmap assignments sid : ℕ) : ℚ)
      = (((section_assignments assignments sid).filter
            (isCommonAssignment subjects)).map
          (fun a => ((dictGet wmap a.library_id 0 : ℕ) : ℚ))).sum
        + (((section_assignments assignments sid).filter
            (fun a => ¬ isCommonAssignment subjects a)).map
          (fun a => ((dictGet wmap a.library_id 0 : ℕ) : ℚ))).sum := by
  unfold total_section_watch_time
  rw [Nat.cast_list_sum, List.map_map]
  generalize section_assignments assignments sid = l
  induction l with
  | nil => simp
  | cons a t ih =>
    by_cases h : isCommonAssignment subjects a <;>
      simp [h, ih, Function.comp] <;> ring

set_option maxRecDepth 8000 in
/-- Claim C2 (counterexample): one common-subject assignment with raw watch time
4000 and order share ¼ for section 1: the code's pool is 4000 while the
spec formula gives 1000, and the run's stored watch-time percentages are
computed against the raw pool (both equal 1). -/
theorem section_pool_counterexample :
    ((total_section_watch_time
        (buildWatchTimeMap [⟨1, 5, none, 10, 0, 1⟩] [⟨5, 1, 2024, 4000⟩] 2024)
        [⟨1, 5, none, 10, 0, 1⟩] 1 : ℕ) : ℚ)
      ≠ specSectionPool
          (buildWatchTimeMap [⟨1, 5, none, 10, 0, 1⟩] [⟨5, 1, 2024, 4000⟩] 2024)
          (calculate_section_order_percentages [⟨1, 1⟩, ⟨2, 3⟩])
          [⟨10, true⟩] [⟨1, 5, none, 10, 0, 1⟩] 1 ∧
      specSectionPool
          (buildWatchTimeMap [⟨1, 5, none, 10, 0, 1⟩] [⟨5, 1, 2024, 4000⟩] 2024)
          (calculate_section_order_percentages [⟨1, 1⟩, ⟨2, 3⟩])
          [⟨10, true⟩] [⟨1, 5, none, 10, 0, 1⟩] 1 = 1000 ∧
      total_section_watch_time
          (buildWatchTimeMap [⟨1, 5, none, 10, 0, 1⟩] [⟨5, 1, 2024, 4000⟩] 2024)
          [⟨1, 5, none, 10, 0, 1⟩] 1 = 4000 ∧
      (calcPaymentsCore 1 1 2024 [⟨1, 1, 100⟩, ⟨2, 3, 100⟩] [⟨1, 5, none, 10, 0, 1⟩]
          [⟨10, true⟩] [⟨5, 1, 2024, 4000⟩]).map (·.watch_time_percentage)
        = [1, 1] := by
  with_unfolding_all decide

theorem dictGet_of_mem_keys {β : Type} (m : List (Nat × β)) (k : Nat) (d : β)
    (h : k ∈ m.map (·.1)) : ∃ kv ∈ m, kv.1 = k ∧ dictGet m k d = kv.2 := by
  induction m with
  | nil => simp at h
  | cons kv0 t ih =>
    by_cases hk : kv0.1 = k
    · refine ⟨kv0, List.mem_cons_self _ _, hk, ?_⟩
      simp [dictGet, List.find?_cons, hk]
    · have h' : k ∈ t.map (·.1) := by
        rcases List.mem_map.mp h with ⟨kv, hkv, hEq⟩
        rcases List.mem_cons.mp hkv with rfl | hkt
        · exact absurd hEq hk
        · exact hEq ▸ List.mem_map_of_mem (fun kv : Nat × β => kv.1) hkt
      rcases ih h' with ⟨kv, hkv, hkve, hget⟩
      refine ⟨kv, List.mem_cons_of_mem _ hkv, hkve, ?_⟩
      simpa [dictGet, List.find?_cons, hk] using hget

theorem mem_keys_dictInsert_self {β : Type} (m : List (Nat × β)) (k : Nat)
    (v : β) : k ∈ (dictInsert m k v).map (·.1) := by
  unfold dictInsert
  split
  · next hany =>
    rcases List.any_eq_true.mp hany with ⟨kv, hkv, he⟩
    have he' : kv.1 = k := by simpa using he
    refine List.mem_map.mpr ⟨(k, v), List.mem_map.mpr ⟨kv, hkv, by simp [he']⟩, rfl⟩
  · simp

theorem mem_keys_dictInsert_of_mem {β : Type} (m : List (Nat × β)) (k : Nat)
    (v : β) (x : Nat) (hx : x ∈ m.map (·.1)) :
    x ∈ (dictInsert m k v).map (·.1) := by
  unfold dictInsert
  split
  · rcases List.mem_map.mp hx with ⟨kv, hkv, rfl⟩
    by_cases he : kv.1 = k
    · exact List.mem_map.mpr
        ⟨(k, v), List.mem_map.mpr ⟨kv, hkv, by simp [he]⟩, by simp [he]⟩
    · exact List.mem_map.mpr
        ⟨kv, List.mem_map.mpr ⟨kv, hkv, by simp [he]⟩, rfl⟩
  · rw [List.map_append]
    exact List.mem_append_left _ hx

theorem dictInsert_values_invariant {β : Type} (P : Nat → β → Prop)
    (m : List (Nat × β)) (k : Nat) (v : β)
    (hm : ∀ kv ∈ m, P kv.1 kv.2) (hkv : P k v) :
    ∀ kv ∈ dictInsert m k v, P kv.1 kv.2 := by
  intro kv hmem
  unfold dictInsert at hmem
  split at hmem
  · rcases List.mem_map.mp hmem with ⟨kv0, hkv0, rfl⟩
    by_cases he : kv0.1 = k
    · simpa [he] using hkv
    · simpa [he] using hm kv0 hkv0
  · rcases List.mem_append.mp hmem with h | h
    · exact hm kv h
    · rcases List.mem_singleton.mp h with rfl
      exact hkv

theorem buildWatchTimeMap_values (assignments : List AssignmentRow)
    (stats : List HistStatRow) (year : Nat) :
    ∀ kv ∈ buildWatchTimeMap assignments stats year,
      kv.2 = yearStatsSum stats kv.1 year := by
  unfold buildWatchTimeMap
  suffices h : ∀ (as : List AssignmentRow) (m : List (Nat × Nat)),
      (∀ kv ∈ m, kv.2 = yearStatsSum stats kv.1 year) →
      ∀ kv ∈ as.foldl
        (fun m a => dictInsert m a.library_id (yearStatsSum stats a.library_id year)) m,
        kv.2 = yearStatsSum stats kv.1 year by
    exact h assignments [] (by simp)
  intro as
  induction as with
  | nil => intro m hm; simpa using hm
  | cons a t ih =>
    intro m hm
    rw [List.foldl_cons]
    exact ih _ (dictInsert_values_invariant
      (fun k v => v = yearStatsSum stats k year) m _ _ hm rfl)

theorem foldl_dictInsert_keys_mono (stats : List HistStatRow) (year : Nat) :
    ∀ (as : List AssignmentRow) (m : List (Nat × Nat)) (x : Nat),
      x ∈ m.map (·.1) →
      x ∈ (as.foldl
        (fun m a => dictInsert m a.library_id (yearStatsSum stats a.library_id year))
        m).map (·.1)
  | [], _, _, hx => hx
  | a :: t, m, x, hx => by
    rw [List.foldl_cons]
    exact foldl_dictInsert_keys_mono stats year t _ x
      (mem_keys_dictInsert_of_mem m _ _ x hx)

theorem buildWatchTimeMap_keys (assignments : List AssignmentRow)
    (stats : List HistStatRow) (year : Nat) (a : AssignmentRow)
    (ha : a ∈ assignments) :
    a.library_id ∈ (buildWatchTimeMap assignments stats year).map (·.1) := by
  unfold buildWatchTimeMap
  suffices h : ∀ (as : List AssignmentRow) (m : List (Nat × Nat)),
      a ∈ as →
      a.library_id ∈ (as.foldl
        (fun m a => dictInsert m a.library_id (yearStatsSum stats a.library_id year))
        m).map (·.1) by
    exact h assignments [] ha
  intro as
  induction as with
  | nil => intro m hm; simp at hm
  | cons a0 t ih =>
    intro m hm
    rw [List.foldl_cons]
    rcases List.mem_cons.mp hm with rfl | hm'
    · exact foldl_dictInsert_keys_mono stats year t _ _
        (mem_keys_dictInsert_self m _ _)
    · exact ih _ hm'

/-- Claim C1 (amended): the watch-time total the calculation run uses for
every assignment's library is the sum of *all* historical rows matching
(library, period year) — the code's `FinancialPeriod` declares no list of
months, so no month filtering ever occurs. -/
theorem aggregator_always_year_sum (assignments : List AssignmentRow)
    (stats : List HistStatRow) (year : Nat) (a : AssignmentRow)
    (ha : a ∈ assignments) :
    dictGet (buildWatchTimeMap assignments stats year) a.library_id 0
      = yearStatsSum stats a.library_id year := by
  rcases dictGet_of_mem_keys (buildWatchTimeMap assignments stats year)
      a.library_id 0 (buildWatchTimeMap_keys assignments stats year a ha) with
    ⟨kv, hkv, hke, hget⟩
  rw [hget, buildWatchTimeMap_values assignments stats year kv hkv, hke]

theorem aggregator_always_year_sum_witness :
    dictGet (buildWatchTimeMap [⟨1, 5, none, 10, 0, 1⟩]
        [⟨5, 1, 2024, 100⟩, ⟨5, 2, 2024, 50⟩] 2024)
      (⟨1, 5, none, 10, 0, 1⟩ : AssignmentRow).library_id 0
      = yearStatsSum [⟨5, 1, 2024, 100⟩, ⟨5, 2, 2024, 50⟩]
        (⟨1, 5, none, 10, 0, 1⟩ : AssignmentRow).library_id 2024 :=
  aggregator_always_year_sum [⟨1, 5, none, 10, 0, 1⟩]
    [⟨5, 1, 2024, 100⟩, ⟨5, 2, 2024, 50⟩] 2024 ⟨1, 5, none, 10, 0, 1⟩
    (List.mem_singleton.mpr rfl)

set_option maxRecDepth 8000 in
/-- Claim C1 (counterexample): a period of year 2024 declaring only month 1,
with stat rows for months 1 (100 s) and 2 (50 s): the declared-months sum of
the spec is 100, but the code aggregates 150 — all rows of the year — and
stores 150 in its watch-time map. -/
theorem aggregator_months_counterexample :
    specAggregateWatchTime [⟨5, 1, 2024, 100⟩, ⟨5, 2, 2024, 50⟩] 5 2024 [1] = 100 ∧
      yearStatsSum [⟨5, 1, 2024, 100⟩, ⟨5, 2, 2024, 50⟩] 5 2024 = 150 ∧
      buildWatchTimeMap [⟨1, 5, none, 10, 0, 1⟩]
          [⟨5, 1, 2024, 100⟩, ⟨5, 2, 2024, 50⟩] 2024 = [(5, 150)] ∧
      ([1] : List Nat) ≠ [] ∧
      yearStatsSum [⟨5, 1, 2024, 100⟩, ⟨5, 2, 2024, 50⟩] 5 2024
        ≠ specAggregateWatchTime [⟨5, 1, 2024, 100⟩, ⟨5, 2, 2024, 50⟩] 5 2024 [1] := by
  with_unfolding_all decide

end BunnyTeacher
